import Mathlib

/-!
Verification development for the OCR-ChatQA document-ingestion pipeline.

Shallow embedding of the Python sources under `src/api/`:
strings are `List Char`, external services (Mistral OCR API, pdf2image,
PyMuPDF, the Chroma vector store, the filesystem, the wall clock) are
oracle records supplying the values those calls would return, and each
Python function becomes a Lean function mirroring its control flow,
including the `try`/`except` paths (an exception that a caller catches
is modelled by the oracle flag that makes the callee take its handler
branch).
-/

/-! ## Python string primitives -/

/-- Whitespace characters stripped by Python `str.strip()` (ASCII part;
the sources only ever strip OCR text and PDF page text). -/
def pyIsSpace (c : Char) : Bool :=
  c = ' ' || c = '\t' || c = '\n' || c = '\r' || c = Char.ofNat 11 || c = Char.ofNat 12

/-- Python `str.strip()`: drop leading and trailing whitespace. -/
def pstrip (l : List Char) : List Char :=
  ((l.dropWhile pyIsSpace).reverse.dropWhile pyIsSpace).reverse

/-- Python `str.lower()` (ASCII case folding, as used on file extensions). -/
def pylower (l : List Char) : List Char :=
  l.map Char.toLower

/-- Python `str.endswith(s)`: suffix test. -/
def pyendswith (s l : List Char) : Bool :=
  decide (s <:+ l)

/-- Suffix of `l` starting at the last `'.'` of `l`, or `[]` when `l`
has no dot.  Helper for `splitextExt`. -/
def extFrom : List Char → List Char
  | [] => []
  | c :: cs =>
    let r := extFrom cs
    if r.isEmpty then (if c = '.' then c :: cs else []) else r

/-- Part of a path after the last `'/'` (Python `os.path` basename as
used by `splitext`). -/
def basename : List Char → List Char
  | [] => []
  | c :: cs =>
    if c = '/' then basename cs
    else if '/' ∈ cs then basename cs
    else c :: cs

/-- Extension component of Python `os.path.splitext`: the suffix of the
basename from its last dot, except that dots leading the basename do not
start an extension (`splitext(".bashrc") = (".bashrc", "")`). -/
def splitextExt (p : List Char) : List Char :=
  extFrom ((basename p).dropWhile (fun c => c = '.'))

/-- Root component of Python `os.path.splitext` applied to the basename:
the basename with its extension removed (`base_name` in the sources). -/
def splitextRoot (p : List Char) : List Char :=
  let b := basename p
  b.take (b.length - (splitextExt b).length)

/-! ## PDF classifier (`MistralOCRProcessor.is_pdf_scanned`,
`src/api/mistral_ocr_utils.py` lines 166-196; the Tesseract variant in
`src/api/ocr_utils.py` lines 98-128 is character-for-character the same
algorithm). -/

/-- A PDF as PyMuPDF (`fitz`) sees it: either it opens and yields one
extracted-text string per page (`page.get_text()`), or opening/parsing
raises. -/
inductive PdfFile where
  | parsed (pages : List (List Char))
  | unreadable
deriving Repr

/-- Embedding of `is_pdf_scanned`: examine the first `min(3, page count)`
pages; a page with stripped extractable text longer than 50 characters
makes the PDF text-based (`False`); an unopenable file is reported as
text-based (`except` branch returns `False`). -/
def is_pdf_scanned (pdf : PdfFile) : Bool :=
  match pdf with
  | .unreadable => false
  | .parsed pages =>
    let pages_to_check := min 3 pages.length
    let text_found := (pages.take pages_to_check).any (fun raw =>
      let text := pstrip raw
      !text.isEmpty && decide (text.length > 50))
    !text_found

/-! ## OCR extractor (`extract_text_from_scanned_pdf`,
`src/api/mistral_ocr_utils.py` lines 347-419). -/

/-- Oracle for the OCR service responses.  `directPages` is what the
single whole-document `ocr.process` call returns: the markdown of each
response page, with `none` covering both a raised exception and a falsy
(absent or page-less) response — the surrounding helper turns either
into `""`.  `rasterize` is `convert_from_path`'s outcome: `none` when
it raises (the outer `except` then returns `""`), otherwise one entry
per rasterized page holding that page's own `ocr.process` response in
the same format (per-page exceptions are caught inside the loop). -/
structure OcrOracle where
  directPages : Option (List (List Char))
  rasterize : Option (List (Option (List (List Char))))
deriving Repr

/-- Python `sep.join(parts)`. -/
def pyjoin (sep : List Char) : List (List Char) → List Char
  | [] => []
  | [p] => p
  | p :: ps => p ++ sep ++ pyjoin sep ps

/-- Embedding of `_extract_text_using_ocr_process`
(`src/api/mistral_ocr_utils.py` lines 96-140), the helper behind both
the direct tier and each fallback page: every response page's markdown
is stripped, empty pages are dropped, and the remainder is joined with
`"\n\n"`; an exception and a falsy response both yield `""` (a
response with an empty page list also yields `""`, through either
branch). -/
def extract_text_using_ocr_process (response : Option (List (List Char))) : List Char :=
  match response with
  | none => []
  | some pages =>
    let raw_content := (pages.map pstrip).filter (fun page_content => !page_content.isEmpty)
    pyjoin "\n\n".data raw_content

/-- Page marker interposed by the page-by-page fallback:
`f"\n--- Page {page_num + 1} ---\n{page_text}\n"`. -/
def pageMark (i : Nat) (t : List Char) : List Char :=
  "\n--- Page ".data ++ (toString (i + 1)).data ++ " ---\n".data ++ t ++ "\n".data

/-- Embedding of `extract_text_from_scanned_pdf`.  Returns the extracted
text together with the number of page-level OCR calls made (zero when
the direct tier's text is accepted).  The direct text is accepted when
it is truthy and its stripped length exceeds 100. -/
def extract_text_from_scanned_pdf (o : OcrOracle) : List Char × Nat :=
  let direct_text := extract_text_using_ocr_process o.directPages
  if ¬ direct_text.isEmpty ∧ (pstrip direct_text).length > 100 then
    (direct_text, 0)
  else
    match o.rasterize with
    | none => ([], 0)
    | some pages =>
      let extracted_text := pages.enum.foldl (fun acc p =>
        let page_text := extract_text_using_ocr_process p.2
        if page_text.isEmpty then acc else acc ++ pageMark p.1 page_text) []
      (extracted_text, pages.length)

/-! ## The `results` dictionary of `convert_and_save_both`
(`src/api/mistral_ocr_utils.py` lines 266-345).  The dictionary is
embedded as an association list so that the `results['pdf_path']`
access of line 334 (a key that is never put into the dictionary) is
visible in the model exactly as in the source. -/

/-- Values stored in the `results` dictionary. -/
inductive RVal where
  | vb (v : Bool)
  | vs (v : List Char)
  | vn (v : Nat)
  | vlist (v : List (List Char))
deriving Repr

/-- Python dictionary with string keys, as an association list. -/
abbrev RDict := List (String × RVal)

/-- Dictionary assignment `d[k] = v`. -/
def dset (d : RDict) (k : String) (v : RVal) : RDict :=
  if d.any (fun p => p.1 == k) then
    d.map (fun p => if p.1 == k then (k, v) else p)
  else d ++ [(k, v)]

/-- Dictionary lookup `d[k]`; `none` is a `KeyError`. -/
def dget (d : RDict) (k : String) : Option RVal :=
  (d.find? (fun p => p.1 == k)).map Prod.snd

/-- Python `results["errors"].append(m)`.  The `"errors"` key is present
from initialization in every reachable dictionary. -/
def appendError (d : RDict) (m : List Char) : RDict :=
  match dget d "errors" with
  | some (.vlist l) => dset d "errors" (.vlist (l ++ [m]))
  | _ => d

/-- Boolean read `d[k]` (the key is always present where this is used). -/
def getB (d : RDict) (k : String) : Bool :=
  match dget d k with
  | some (.vb b) => b
  | _ => false

/-- String read `d[k]` (the key is always present where this is used). -/
def getS (d : RDict) (k : String) : List Char :=
  match dget d k with
  | some (.vs s) => s
  | _ => []

/-! ## `save_extracted_text_to_file` and `convert_and_save_both`
(`src/api/mistral_ocr_utils.py` lines 223-345). -/

/-- Oracle for one `convert_and_save_both` run.  `earlyRaise`/`earlyMsg`:
`os.makedirs(output_dir_custom)` raising (caught by the outer `except`).
`pageCount`: the page-count `convert_from_path` call, `none` when it
raises (its own `except` only logs a warning).  `saveRaises`: an
exception inside `save_extracted_text_to_file` outside the extraction
itself (path generation, `makedirs`, or the file write), whose handler
returns `(False, "")`.  `ocr` drives the extraction tiers; `duration`
and `duration2` are the two `time.time() - start_time` readings (the
second one is taken in the outer `except` handler). -/
structure ConvertOracle where
  earlyRaise : Bool
  earlyMsg : List Char
  pageCount : Option Nat
  saveRaises : Bool
  ocr : OcrOracle
  duration : Nat
  duration2 : Nat
deriving Repr

/-- Error message appended when text extraction produced nothing. -/
def failExtractMsg : List Char :=
  "Failed to extract text to file with Mistral AI OCR process".data

/-- String form of the `KeyError: 'pdf_path'` raised by the success-path
logging line 334 (`str(e)` for a `KeyError` is the quoted key). -/
def keyErrorMsg : List Char :=
  "'pdf_path'".data

/-- Text-file output path that `convert_and_save_both` passes to
`save_extracted_text_to_file` when a custom output directory is given
(the loader always gives `"./processed_documents"`). -/
def textOutputPathFor (inputPdf : List Char) : List Char :=
  "./processed_documents/".data ++ splitextRoot inputPdf ++ "_mistral_extracted_text.txt".data

/-- Embedding of `save_extracted_text_to_file`: extract the text and, if
it is truthy, report success together with the output path; an empty
extraction reports `(False, "")`, and so does the `except` branch. -/
def save_extracted_text_to_file (o : ConvertOracle) (output_text_path : List Char) :
    Bool × List Char :=
  if o.saveRaises then (false, [])
  else
    let extracted_text := (extract_text_from_scanned_pdf o.ocr).1
    if ¬ extracted_text.isEmpty then (true, output_text_path)
    else (false, [])

/-- The `results` dictionary as initialized at lines 279-287. -/
def initResults : RDict :=
  [("success", .vb false), ("text_path", .vs []), ("errors", .vlist []),
   ("processing_time", .vn 0), ("pages_processed", .vn 0),
   ("api_calls_made", .vn 0), ("successful_pages", .vn 0)]

/-- Embedding of `convert_and_save_both` for the call made by the
loader (a custom output directory is supplied).  Mirrors the source
order: page counting (`api_calls_made` set to 1, never revisited), text
extraction and save, `success`/`processing_time`, then the success-path
logging whose `results['pdf_path']` lookup raises the `KeyError` that
the outer `except` appends to `errors`. -/
def convert_and_save_both (o : ConvertOracle) (input_pdf_path : List Char) : RDict :=
  let results := initResults
  if o.earlyRaise then
    dset (appendError results o.earlyMsg) "processing_time" (.vn o.duration2)
  else
    let results :=
      match o.pageCount with
      | some n => dset (dset results "pages_processed" (.vn n)) "api_calls_made" (.vn 1)
      | none => results
    let tp := save_extracted_text_to_file o (textOutputPathFor input_pdf_path)
    let results :=
      if tp.1 then dset results "text_path" (.vs tp.2)
      else appendError results failExtractMsg
    let results := dset results "success" (.vb tp.1)
    let results := dset results "processing_time" (.vn o.duration)
    if tp.1 then
      match dget results "pdf_path" with
      | some _ => results
      | none => dset (appendError results keyErrorMsg) "processing_time" (.vn o.duration2)
    else results

/-! ## Document loader (`load_and_split_document` and
`index_document_to_chroma`, `src/api/chroma_utils.py` lines 52-272). -/

/-- A LangChain `Document` restricted to the fields the verified claims
inspect: the page content and the two provenance tags the loader writes
(`processing_method`, `ocr_conversion_success`).  The remaining metadata
keys (paths, timings, chunk indices) are carried by no claim. -/
structure Doc where
  page_content : List Char
  processing_method : List Char
  ocr_conversion_success : Bool
deriving Repr

/-- Fuel-indexed chunking helper (fuel is the text length, which bounds
the number of chunks). -/
def chunksOfAux : Nat → List Char → List (List Char)
  | _, [] => []
  | 0, l => [l]
  | fuel + 1, l => l.take 1000 :: chunksOfAux fuel (l.drop 1000)

/-- Modelled from the library: `RecursiveCharacterTextSplitter`
(LangChain, chunk size 1000) is external code, embedded as greedy
fixed-size chunking.  Every claim that touches chunking depends only on
chunk emptiness, never on boundary placement. -/
def chunkText (l : List Char) : List (List Char) :=
  chunksOfAux l.length l

/-- Embedding of `text_splitter.split_documents`: each document becomes
one chunk-document per chunk of its content, inheriting its tags. -/
def split_documents (docs : List Doc) : List Doc :=
  docs.flatMap (fun d => (chunkText d.page_content).map
    (fun c => { d with page_content := c }))

/-- Oracle for one loader run.  `ocrAvailable`: whether the module-level
`MistralOCRProcessor` initialization succeeded (`ocr_processor` is not
`None`).  `pdf` feeds `is_pdf_scanned`; `conv` feeds
`convert_and_save_both`.  `textRead`: reading back the extracted-text
file (`none` = the file does not exist or reading raises, both of which
leave `documents` empty).  `pypdfDocs`/`docxDocs`/`htmlDocs`: per-page
contents from `PyPDFLoader`/`Docx2txtLoader`/`UnstructuredHTMLLoader`,
`none` when the loader raises (the outer `except` then returns `[]`). -/
structure LoaderOracle where
  ocrAvailable : Bool
  pdf : PdfFile
  conv : ConvertOracle
  textRead : Option (List Char)
  pypdfDocs : Option (List (List Char))
  docxDocs : Option (List (List Char))
  htmlDocs : Option (List (List Char))
deriving Repr

/-- Placeholder document content created when the Mistral OCR conversion
produced no loadable text (`chroma_utils.py` line 131). -/
def failedPlaceholder : List Char :=
  "Failed to extract text using Mistral AI OCR. Please check the document quality and try again.".data

/-- Embedding of `load_and_split_document`: extension dispatch is by
case-sensitive `str.endswith` on the file path; a scanned PDF goes
through `convert_and_save_both`, an unreadable result is replaced by the
error placeholder document; unsupported extensions raise `ValueError`,
which the outer `except` turns into `[]`, as it does every loader
exception. -/
def load_and_split_document (o : LoaderOracle) (file_path : List Char) : List Doc :=
  let documents : List Doc :=
    if pyendswith ".pdf".data file_path then
      if o.ocrAvailable && is_pdf_scanned o.pdf then
        let results := convert_and_save_both o.conv file_path
        let docs0 : List Doc :=
          if getB results "success" then
            if ¬ (getS results "text_path").isEmpty then
              match o.textRead with
              | some text_content =>
                if ¬ (pstrip text_content).isEmpty then
                  [⟨text_content, "mistral_ocr_text_only".data, true⟩]
                else []
              | none => []
            else []
          else []
        if docs0.isEmpty then
          [⟨failedPlaceholder, "mistral_ocr_failed".data, false⟩]
        else docs0
      else
        match o.pypdfDocs with
        | some pages => pages.map (fun c => ⟨c, "standard_pdf".data, false⟩)
        | none => []
    else if pyendswith ".docx".data file_path then
      match o.docxDocs with
      | some ds => ds.map (fun c => ⟨c, "docx_standard".data, false⟩)
      | none => []
    else if pyendswith ".html".data file_path then
      match o.htmlDocs with
      | some ds => ds.map (fun c => ⟨c, "html_standard".data, false⟩)
      | none => []
    else []
  split_documents documents

/-- Embedding of `index_document_to_chroma`: no splits means `False`;
otherwise success is whether `vectorstore.add_documents` went through
(`addOk`; an exception there is caught and yields `False`).  The chunk
metadata enrichment loop touches no field a claim inspects. -/
def index_document_to_chroma (o : LoaderOracle) (addOk : Bool) (file_path : List Char) : Bool :=
  let splits := load_and_split_document o file_path
  if splits.isEmpty then false else addOk

/-! ## Processing state tracker (`src/api/db_utils.py` lines 106-192)
and the background task (`src/api/main.py` lines 86-113). -/

/-- The four processing statuses the application writes. -/
inductive Status where
  | pending
  | processing
  | completed
  | failed
deriving Repr, DecidableEq

/-- The optional `ocr_data` dictionary accepted by
`update_document_processing_status`; `none` in a field means the key is
absent from the dictionary. -/
structure OcrData where
  is_scanned_pdf : Option Bool
  converted_pdf_path : Option (List Char)
  extracted_text_path : Option (List Char)
  ocr_conversion_success : Option Bool
  ocr_processing_time : Option Nat
  total_pages : Option Nat
  total_chunks : Option Nat
  ocr_confidence_score : Option Nat
deriving Repr

/-- A `document_store` row, restricted to the columns the claims and the
functions above touch. -/
structure DocRecord where
  filename : List Char
  processing_status : Status
  processing_method : Option (List Char)
  error_message : Option (List Char)
  processing_start_time : Option Nat
  processing_end_time : Option Nat
  is_scanned_pdf : Option Bool
  converted_pdf_path : Option (List Char)
  extracted_text_path : Option (List Char)
  ocr_conversion_success : Option Bool
  ocr_processing_time : Option Nat
  total_pages : Option Nat
  total_chunks : Option Nat
  ocr_confidence_score : Option Nat
deriving Repr

/-- Embedding of `insert_document_record`: a fresh row whose status is
the one passed (the upload endpoint passes `"pending"`) and whose other
mutable columns are NULL. -/
def insert_document_record (filename : List Char) (status : Status) : DocRecord :=
  { filename := filename
    processing_status := status
    processing_method := none
    error_message := none
    processing_start_time := none
    processing_end_time := none
    is_scanned_pdf := none
    converted_pdf_path := none
    extracted_text_path := none
    ocr_conversion_success := none
    ocr_processing_time := none
    total_pages := none
    total_chunks := none
    ocr_confidence_score := none }

/-- Embedding of `update_document_processing_status`: one SQL UPDATE
that always sets the status, adds the start timestamp for
`"processing"` and the end timestamp for `"completed"`/`"failed"`, and
adds each optional column that was passed (a falsy — empty — error
message or method is skipped, mirroring `if error_message:`). -/
def update_document_processing_status (row : DocRecord) (status : Status)
    (error_message : Option (List Char)) (processing_method : Option (List Char))
    (ocr_data : Option OcrData) (now : Nat) : DocRecord :=
  let row := { row with processing_status := status }
  let row :=
    match status with
    | .processing => { row with processing_start_time := some now }
    | .completed => { row with processing_end_time := some now }
    | .failed => { row with processing_end_time := some now }
    | .pending => row
  let row :=
    match error_message with
    | some m => if m.isEmpty then row else { row with error_message := some m }
    | none => row
  let row :=
    match processing_method with
    | some m => if m.isEmpty then row else { row with processing_method := some m }
    | none => row
  match ocr_data with
  | none => row
  | some od =>
    let row := match od.is_scanned_pdf with
      | some v => { row with is_scanned_pdf := some v } | none => row
    let row := match od.converted_pdf_path with
      | some v => { row with converted_pdf_path := some v } | none => row
    let row := match od.extracted_text_path with
      | some v => { row with extracted_text_path := some v } | none => row
    let row := match od.ocr_conversion_success with
      | some v => { row with ocr_conversion_success := some v } | none => row
    let row := match od.ocr_processing_time with
      | some v => { row with ocr_processing_time := some v } | none => row
    let row := match od.total_pages with
      | some v => { row with total_pages := some v } | none => row
    let row := match od.total_chunks with
      | some v => { row with total_chunks := some v } | none => row
    match od.ocr_confidence_score with
      | some v => { row with ocr_confidence_score := some v } | none => row

/-- Temporary upload path `f"temp_{uuid.uuid4()}_{file.filename}"`. -/
def tempFilePath (uuid filename : List Char) : List Char :=
  "temp_".data ++ uuid ++ "_".data ++ filename

/-- Embedding of `process_document_background` applied to the row it
mutates: set `"processing"`, index, then set `"completed"` on success or
`"failed"` otherwise — each update passing only the status (no error
message, no method, no OCR data).  `t1`/`t2` are the two
`datetime.now()` readings. -/
def process_document_background (o : LoaderOracle) (addOk : Bool)
    (file_path : List Char) (row : DocRecord) (t1 t2 : Nat) : DocRecord :=
  let rec1 := update_document_processing_status row .processing none none none t1
  let success := index_document_to_chroma o addOk file_path
  if success then update_document_processing_status rec1 .completed none none none t2
  else update_document_processing_status rec1 .failed none none none t2

/-- The successive states of one document's row: as inserted by the
upload endpoint, after the `"processing"` update, and after the terminal
update of `process_document_background`. -/
def pipelineRecords (filename uuid : List Char) (o : LoaderOracle) (addOk : Bool)
    (t1 t2 : Nat) : List DocRecord :=
  let r0 := insert_document_record filename .pending
  let r1 := update_document_processing_status r0 .processing none none none t1
  let r2 := process_document_background o addOk (tempFilePath uuid filename) r0 t1 t2
  [r0, r1, r2]

/-- Terminal row of one document's pipeline run. -/
def pipelineFinal (filename uuid : List Char) (o : LoaderOracle) (addOk : Bool)
    (t1 t2 : Nat) : DocRecord :=
  process_document_background o addOk (tempFilePath uuid filename)
    (insert_document_record filename .pending) t1 t2

/-! ## Upload endpoint (`upload_and_index_document`,
`src/api/main.py` lines 116-161). -/

/-- The accepted extensions, in source order. -/
def allowed_extensions : List (List Char) :=
  [".pdf".data, ".docx".data, ".html".data]

/-- Outcome of the upload endpoint: HTTP 400 for an unsupported type,
HTTP 500 when the `try` block raises, or the success payload. -/
inductive UploadOutcome where
  | rejectedUnsupported
  | uploadError
  | accepted (row : DocRecord)
deriving Repr

/-- Embedding of `upload_and_index_document`: the lowercased
`splitext` extension is checked against `allowed_extensions` before
anything else; on rejection nothing is written.  Otherwise the temp
file is written (`writeRaises` models that failing, whose handler
returns HTTP 500 having inserted no record and submitted no task), a
`"pending"` record is inserted and a background task is submitted.
Returns the outcome, the records inserted, and the file paths of the
submitted background tasks. -/
def upload_and_index_document (filename uuid : List Char) (writeRaises : Bool) :
    UploadOutcome × List DocRecord × List (List Char) :=
  let file_extension := pylower (splitextExt filename)
  if file_extension ∈ allowed_extensions then
    if writeRaises then (.uploadError, [], [])
    else
      let r := insert_document_record filename .pending
      (.accepted r, [r], [tempFilePath uuid filename])
  else (.rejectedUnsupported, [], [])

/-! ## Vector-store deletion (`delete_doc_from_chroma`,
`src/api/chroma_utils.py` lines 275-324). -/

/-- One stored chunk: its vector-store id and the owning `file_id`. -/
structure StoredChunk where
  cid : Nat
  file_id : Nat
deriving Repr, DecidableEq

/-- Embedding of `delete_doc_from_chroma`: fetch the chunks filtered by
`file_id`; when some exist, delete them (`deleteRaises` models the
collection delete raising, caught as `False`); when none exist, return
`True` without touching the store.  `getRaises` models the initial
`vectorstore.get` raising.  Returns the store after the call and the
boolean result. -/
def delete_doc_from_chroma (vs : List StoredChunk) (file_id : Nat)
    (getRaises deleteRaises : Bool) : List StoredChunk × Bool :=
  if getRaises then (vs, false)
  else
    let docs := vs.filter (fun c => c.file_id == file_id)
    if ¬ docs.isEmpty then
      if deleteRaises then (vs, false)
      else (vs.filter (fun c => !(c.file_id == file_id)), true)
    else (vs, true)

/-! ## Concrete scenarios used by the claim theorems and witnesses. -/

/-- A scanned one-page PDF whose OCR yields nothing from either tier:
the direct call returns `""` and the single rasterized page also OCRs
to `""`. -/
def c1Oracle : LoaderOracle :=
  { ocrAvailable := true
    pdf := .parsed [[]]
    conv :=
      { earlyRaise := false
        earlyMsg := []
        pageCount := some 1
        saveRaises := false
        ocr := { directPages := some [[]], rasterize := some [some [[]]] }
        duration := 0
        duration2 := 0 }
    textRead := none
    pypdfDocs := none
    docxDocs := none
    htmlDocs := none }

/-- A two-page scanned PDF whose direct OCR text is too short, so the
page-by-page fallback runs over both pages. -/
def c4Oracle : ConvertOracle :=
  { earlyRaise := false
    earlyMsg := []
    pageCount := some 2
    saveRaises := false
    ocr := { directPages := some [['h', 'i']], rasterize := some [some [['a']], some [['b']]] }
    duration := 5
    duration2 := 7 }

/-- A conversion run in which extraction succeeds (the direct text is
long enough to be accepted). -/
def c10Oracle : ConvertOracle :=
  { earlyRaise := false
    earlyMsg := []
    pageCount := some 1
    saveRaises := false
    ocr := { directPages := some [List.replicate 150 'a'], rasterize := some [] }
    duration := 3
    duration2 := 4 }

/-- A loader run on a `.docx` file whose `Docx2txtLoader` raises, so
extraction yields nothing and indexing fails. -/
def c6Oracle : LoaderOracle :=
  { ocrAvailable := false
    pdf := .unreadable
    conv :=
      { earlyRaise := false
        earlyMsg := []
        pageCount := none
        saveRaises := false
        ocr := { directPages := none, rasterize := none }
        duration := 0
        duration2 := 0 }
    textRead := none
    pypdfDocs := none
    docxDocs := none
    htmlDocs := none }

/-- A loader oracle for the mixed-case-extension scenario; its contents
are irrelevant because no dispatch branch matches. -/
def c9Oracle : LoaderOracle :=
  { ocrAvailable := true
    pdf := .parsed [List.replicate 60 'a']
    conv :=
      { earlyRaise := false
        earlyMsg := []
        pageCount := some 1
        saveRaises := false
        ocr := { directPages := some [List.replicate 150 'b'], rasterize := some [] }
        duration := 1
        duration2 := 2 }
    textRead := some (List.replicate 150 'b')
    pypdfDocs := some [List.replicate 60 'a']
    docxDocs := none
    htmlDocs := none }

/-! ## Suffix infrastructure for the extension-dispatch proofs. -/

/-- The extension computed by `extFrom` is a suffix of its argument. -/
theorem extFrom_suffix (l : List Char) : extFrom l <:+ l := by
  induction l with
  | nil => exact List.nil_suffix
  | cons c cs ih =>
    unfold extFrom
    by_cases hr : (extFrom cs).isEmpty
    · simp only [hr, if_true]
      by_cases hc : c = '.'
      · simp only [hc, if_true]
        exact List.suffix_refl _
      · simp only [hc, if_false]
        exact List.nil_suffix
    · simp only [hr, if_false]
      exact ih.trans (List.suffix_cons c cs)

/-- The basename is a suffix of the path. -/
theorem basename_suffix (l : List Char) : basename l <:+ l := by
  induction l with
  | nil => exact List.nil_suffix
  | cons c cs ih =>
    unfold basename
    by_cases hc : c = '/'
    · simp only [hc, if_true]
      exact ih.trans (List.suffix_cons _ _)
    · simp only [hc, if_false]
      by_cases hm : '/' ∈ cs
      · simp only [hm, if_true]
        exact ih.trans (List.suffix_cons _ _)
      · simp only [hm, if_false]
        exact List.suffix_refl _

/-- The `splitext` extension is a suffix of the whole path. -/
theorem splitextExt_suffix (p : List Char) : splitextExt p <:+ p :=
  ((extFrom_suffix _).trans (List.dropWhile_suffix _)).trans (basename_suffix p)

/-- A suffix of `a ++ b` that is no longer than `b` is a suffix of `b`. -/
theorem suffix_append_drop {t a b : List Char} (h : t <:+ a ++ b)
    (hlen : t.length ≤ b.length) : t <:+ b := by
  have hh := List.suffix_iff_eq_drop.mp h
  rw [List.suffix_iff_eq_drop]
  calc t = (a ++ b).drop ((a ++ b).length - t.length) := hh
  _ = b.drop (b.length - t.length) := by
      have harith : (a ++ b).length - t.length = a.length + (b.length - t.length) := by
        rw [List.length_append]; omega
      rw [harith, ← List.drop_drop, List.drop_left]

/-- Of two suffixes of the same list, the shorter is a tail of the
longer, obtained by dropping the length difference. -/
theorem suffix_suffix_eq_drop {s1 s2 l : List Char} (h1 : s1 <:+ l) (h2 : s2 <:+ l)
    (hle : s1.length ≤ s2.length) : s1 = s2.drop (s2.length - s1.length) := by
  have e1 := List.suffix_iff_eq_drop.mp h1
  have e2 := List.suffix_iff_eq_drop.mp h2
  have hl2 := h2.length_le
  calc s1 = l.drop (l.length - s1.length) := e1
  _ = (l.drop (l.length - s2.length)).drop (s2.length - s1.length) := by
      rw [List.drop_drop]; congr 1; omega
  _ = s2.drop (s2.length - s1.length) := by rw [← e2]

/-- Lowering commutes with dropping a prefix of the list. -/
theorem pylower_drop (l : List Char) (n : Nat) :
    pylower (l.drop n) = (pylower l).drop n := by
  simp [pylower, List.map_drop]

/-- Core of the mixed-case-extension claim: when the lowercased
`splitext` extension of `fn` is supported but the extension itself is
not already lowercase, no case-sensitive `endswith` check against a
supported extension succeeds on any path that ends in `fn`. -/
theorem ext_variant_no_endswith (fn : List Char)
    (h1 : pylower (splitextExt fn) ∈ allowed_extensions)
    (h2 : splitextExt fn ≠ pylower (splitextExt fn))
    (pre t : List Char) (ht : t ∈ allowed_extensions) :
    pyendswith t (pre ++ fn) = false := by
  rw [pyendswith, decide_eq_false_iff_not]
  intro hsuf
  have he : splitextExt fn <:+ fn := splitextExt_suffix fn
  have hefn : (splitextExt fn).length ≤ fn.length := he.length_le
  have hlen_e : (pylower (splitextExt fn)).length = (splitextExt fn).length :=
    List.length_map _ _
  simp only [allowed_extensions, List.mem_cons, List.not_mem_nil, or_false] at h1 ht
  rcases h1 with h1 | h1 | h1
  · -- the lowercased extension is ".pdf", so the extension has length 4
    have hE : (splitextExt fn).length = 4 := by rw [← hlen_e, h1]; rfl
    rcases ht with rfl | rfl | rfl
    · have hfl : (".pdf".data : List Char).length ≤ fn.length := by
        rw [show (".pdf".data : List Char).length = 4 from rfl]; omega
      have heq := suffix_suffix_eq_drop he (suffix_append_drop hsuf hfl)
        (by rw [hE]; decide)
      rw [hE] at heq
      rw [show ((".pdf".data : List Char).drop ((".pdf".data : List Char).length - 4))
          = ".pdf".data from rfl] at heq
      exact h2 (by rw [h1]; exact heq)
    · by_cases hfl : (".docx".data : List Char).length ≤ fn.length
      · have heq := suffix_suffix_eq_drop he (suffix_append_drop hsuf hfl)
          (by rw [hE]; decide)
        rw [hE] at heq
        rw [show ((".docx".data : List Char).drop ((".docx".data : List Char).length - 4))
            = "docx".data from rfl] at heq
        rw [heq] at h1
        exact absurd h1 (by decide)
      · have hfn4 : fn.length = 4 := by
          rw [show (".docx".data : List Char).length = 5 from rfl] at hfl; omega
        have hsub : ("docx".data : List Char) <:+ pre ++ fn :=
          List.IsSuffix.trans (by decide) hsuf
        have hdx : ("docx".data : List Char) <:+ fn := suffix_append_drop hsub
          (by rw [show ("docx".data : List Char).length = 4 from rfl]; omega)
        have heqf := suffix_suffix_eq_drop hdx (List.suffix_refl fn) hdx.length_le
        rw [show ("docx".data : List Char).length = 4 from rfl, hfn4] at heqf
        rw [show fn.drop (4 - 4) = fn from rfl] at heqf
        have heq2 := suffix_suffix_eq_drop he (List.suffix_refl fn) hefn
        rw [hE, hfn4] at heq2
        rw [show fn.drop (4 - 4) = fn from rfl] at heq2
        rw [heq2, ← heqf] at h1
        exact absurd h1 (by decide)
    · by_cases hfl : (".html".data : List Char).length ≤ fn.length
      · have heq := suffix_suffix_eq_drop he (suffix_append_drop hsuf hfl)
          (by rw [hE]; decide)
        rw [hE] at heq
        rw [show ((".html".data : List Char).drop ((".html".data : List Char).length - 4))
            = "html".data from rfl] at heq
        rw [heq] at h1
        exact absurd h1 (by decide)
      · have hfn4 : fn.length = 4 := by
          rw [show (".html".data : List Char).length = 5 from rfl] at hfl; omega
        have hsub : ("html".data : List Char) <:+ pre ++ fn :=
          List.IsSuffix.trans (by decide) hsuf
        have hdx : ("html".data : List Char) <:+ fn := suffix_append_drop hsub
          (by rw [show ("html".data : List Char).length = 4 from rfl]; omega)
        have heqf := suffix_suffix_eq_drop hdx (List.suffix_refl fn) hdx.length_le
        rw [show ("html".data : List Char).length = 4 from rfl, hfn4] at heqf
        rw [show fn.drop (4 - 4) = fn from rfl] at heqf
        have heq2 := suffix_suffix_eq_drop he (List.suffix_refl fn) hefn
        rw [hE, hfn4] at heq2
        rw [show fn.drop (4 - 4) = fn from rfl] at heq2
        rw [heq2, ← heqf] at h1
        exact absurd h1 (by decide)
  · -- the lowercased extension is ".docx", so the extension has length 5
    have hE : (splitextExt fn).length = 5 := by rw [← hlen_e, h1]; rfl
    rcases ht with rfl | rfl | rfl
    · have hfl : (".pdf".data : List Char).length ≤ fn.length := by
        rw [show (".pdf".data : List Char).length = 4 from rfl]; omega
      have heq := suffix_suffix_eq_drop (suffix_append_drop hsuf hfl) he
        (by rw [hE]; decide)
      rw [hE] at heq
      rw [show (5 : Nat) - (".pdf".data : List Char).length = 1 from rfl] at heq
      have h3 : pylower ((splitextExt fn).drop 1) = ("docx".data : List Char) := by
        rw [pylower_drop, h1]; rfl
      rw [← heq] at h3
      exact absurd h3 (by decide)
    · have hfl : (".docx".data : List Char).length ≤ fn.length := by
        rw [show (".docx".data : List Char).length = 5 from rfl]; omega
      have heq := suffix_suffix_eq_drop he (suffix_append_drop hsuf hfl)
        (by rw [hE]; decide)
      rw [hE] at heq
      rw [show ((".docx".data : List Char).drop ((".docx".data : List Char).length - 5))
          = ".docx".data from rfl] at heq
      exact h2 (by rw [h1]; exact heq)
    · have hfl : (".html".data : List Char).length ≤ fn.length := by
        rw [show (".html".data : List Char).length = 5 from rfl]; omega
      have heq := suffix_suffix_eq_drop he (suffix_append_drop hsuf hfl)
        (by rw [hE]; decide)
      rw [hE] at heq
      rw [show ((".html".data : List Char).drop ((".html".data : List Char).length - 5))
          = ".html".data from rfl] at heq
      rw [heq] at h1
      exact absurd h1 (by decide)
  · -- the lowercased extension is ".html", so the extension has length 5
    have hE : (splitextExt fn).length = 5 := by rw [← hlen_e, h1]; rfl
    rcases ht with rfl | rfl | rfl
    · have hfl : (".pdf".data : List Char).length ≤ fn.length := by
        rw [show (".pdf".data : List Char).length = 4 from rfl]; omega
      have heq := suffix_suffix_eq_drop (suffix_append_drop hsuf hfl) he
        (by rw [hE]; decide)
      rw [hE] at heq
      rw [show (5 : Nat) - (".pdf".data : List Char).length = 1 from rfl] at heq
      have h3 : pylower ((splitextExt fn).drop 1) = ("html".data : List Char) := by
        rw [pylower_drop, h1]; rfl
      rw [← heq] at h3
      exact absurd h3 (by decide)
    · have hfl : (".docx".data : List Char).length ≤ fn.length := by
        rw [show (".docx".data : List Char).length = 5 from rfl]; omega
      have heq := suffix_suffix_eq_drop he (suffix_append_drop hsuf hfl)
        (by rw [hE]; decide)
      rw [hE] at heq
      rw [show ((".docx".data : List Char).drop ((".docx".data : List Char).length - 5))
          = ".docx".data from rfl] at heq
      rw [heq] at h1
      exact absurd h1 (by decide)
    · have hfl : (".html".data : List Char).length ≤ fn.length := by
        rw [show (".html".data : List Char).length = 5 from rfl]; omega
      have heq := suffix_suffix_eq_drop he (suffix_append_drop hsuf hfl)
        (by rw [hE]; decide)
      rw [hE] at heq
      rw [show ((".html".data : List Char).drop ((".html".data : List Char).length - 5))
          = ".html".data from rfl] at heq
      exact h2 (by rw [h1]; exact heq)

/-! ## Supporting lemmas about the conversion pipeline. -/

/-- Success of the text save is exactly: no exception in the save
helper, and a non-empty extraction. -/
theorem save_fst (o : ConvertOracle) (p : List Char) :
    (save_extracted_text_to_file o p).1
      = (!o.saveRaises && !(extract_text_from_scanned_pdf o.ocr).1.isEmpty) := by
  unfold save_extracted_text_to_file
  by_cases hs : o.saveRaises
  · simp [hs]
  · by_cases h2 : (extract_text_from_scanned_pdf o.ocr).1.isEmpty <;> simp [hs, h2]

/-- The `"success"` entry of the `results` dictionary is the save
outcome, except that an early exception leaves it `False`. -/
theorem convert_success_getB (o : ConvertOracle) (p : List Char) :
    getB (convert_and_save_both o p) "success"
      = (!o.earlyRaise && (save_extracted_text_to_file o (textOutputPathFor p)).1) := by
  rcases o with ⟨er, em, pc, sr, ocr, d1, d2⟩
  cases er
  · cases pc with
    | none =>
      rcases hsv : save_extracted_text_to_file ⟨false, em, none, sr, ocr, d1, d2⟩
          (textOutputPathFor p) with ⟨ts, tpath⟩
      cases ts <;> (unfold convert_and_save_both getB; rw [hsv]) <;> rfl
    | some n =>
      rcases hsv : save_extracted_text_to_file ⟨false, em, some n, sr, ocr, d1, d2⟩
          (textOutputPathFor p) with ⟨ts, tpath⟩
      cases ts <;> (unfold convert_and_save_both getB; rw [hsv]) <;> rfl
  · rfl

/-- Status written by `update_document_processing_status` when no
optional argument is supplied. -/
theorem update_status_none (row : DocRecord) (s : Status) (t : Nat) :
    (update_document_processing_status row s none none none t).processing_status = s := by
  cases s <;> rfl

/-- A bare `"processing"` update records the start timestamp. -/
theorem update_processing_start (row : DocRecord) (t : Nat) :
    (update_document_processing_status row .processing none none none t).processing_start_time
      = some t := rfl

/-- A bare terminal update records the end timestamp. -/
theorem update_terminal_end (row : DocRecord) (s : Status) (t : Nat)
    (hs : s = Status.completed ∨ s = Status.failed) :
    (update_document_processing_status row s none none none t).processing_end_time
      = some t := by
  rcases hs with rfl | rfl <;> rfl

/-- A bare status update leaves the error message unchanged. -/
theorem update_error_none (row : DocRecord) (s : Status) (t : Nat) :
    (update_document_processing_status row s none none none t).error_message
      = row.error_message := by
  cases s <;> rfl

/-- A bare status update leaves the processing method unchanged. -/
theorem update_method_none (row : DocRecord) (s : Status) (t : Nat) :
    (update_document_processing_status row s none none none t).processing_method
      = row.processing_method := by
  cases s <;> rfl

/-- The terminal status of the background task is determined by the
indexing outcome. -/
theorem background_status (o : LoaderOracle) (addOk : Bool) (path : List Char)
    (row : DocRecord) (t1 t2 : Nat) :
    (process_document_background o addOk path row t1 t2).processing_status
      = (if index_document_to_chroma o addOk path then Status.completed else Status.failed) := by
  unfold process_document_background
  cases h : index_document_to_chroma o addOk path <;> simp [h, update_status_none]

/-- The background task passes no error message and no method, so the
terminal row keeps the inserted row's NULL values for both. -/
theorem background_error_method (o : LoaderOracle) (addOk : Bool) (path : List Char)
    (row : DocRecord) (t1 t2 : Nat) :
    (process_document_background o addOk path row t1 t2).error_message = row.error_message
    ∧ (process_document_background o addOk path row t1 t2).processing_method
        = row.processing_method := by
  unfold process_document_background
  cases h : index_document_to_chroma o addOk path <;>
    simp [h, update_error_none, update_method_none]

/-- Scanned-PDF loading with an empty extraction produces exactly the
chunked placeholder document. -/
theorem load_scanned_no_text (o : LoaderOracle) (path : List Char)
    (hpdf : pyendswith ".pdf".data path = true)
    (hav : o.ocrAvailable = true)
    (hsc : is_pdf_scanned o.pdf = true)
    (hext : (extract_text_from_scanned_pdf o.conv.ocr).1 = []) :
    load_and_split_document o path
      = split_documents [⟨failedPlaceholder, "mistral_ocr_failed".data, false⟩] := by
  have hsucc : getB (convert_and_save_both o.conv path) "success" = false := by
    rw [convert_success_getB, save_fst, hext]
    simp
  unfold load_and_split_document
  simp [hpdf, hav, hsc, hsucc]

/-! ## Strip-invariance of the OCR helper's output
(needed because the acceptance test of `extract_text_from_scanned_pdf`
strips a text that `_extract_text_using_ocr_process` already built from
stripped parts). -/

/-- The head of a `dropWhile pyIsSpace` result is not whitespace. -/
theorem head_dropWhile_false (l : List Char) (c : Char)
    (h : (l.dropWhile pyIsSpace).head? = some c) : pyIsSpace c = false := by
  induction l with
  | nil => simp [List.dropWhile] at h
  | cons a as ih =>
    rw [List.dropWhile_cons] at h
    by_cases hp : pyIsSpace a
    · rw [if_pos hp] at h
      exact ih h
    · rw [if_neg hp] at h
      simp at h
      rw [← h]
      cases hb : pyIsSpace a
      · rfl
      · exact absurd hb hp

/-- `pstrip` fixes a list whose two ends are not whitespace. -/
theorem pstrip_eq_self (l : List Char)
    (hh : ∀ c, l.head? = some c → pyIsSpace c = false)
    (hl : ∀ c, l.getLast? = some c → pyIsSpace c = false) :
    pstrip l = l := by
  rcases l with _ | ⟨a, as⟩
  · rfl
  · have ha : pyIsSpace a = false := hh a rfl
    have h1 : (a :: as).dropWhile pyIsSpace = a :: as := by
      rw [List.dropWhile_cons, if_neg (by simp [ha])]
    have hne : (a :: as) ≠ [] := by simp
    have hd : (a :: as).getLast? = some ((a :: as).getLast hne) :=
      List.getLast?_eq_getLast _ hne
    have hd' : pyIsSpace ((a :: as).getLast hne) = false := hl _ hd
    have h2 : (a :: as).reverse.dropWhile pyIsSpace = (a :: as).reverse := by
      rcases hr : (a :: as).reverse with _ | ⟨d, ds⟩
      · rfl
      · have hrev : (a :: as).reverse.head? = some ((a :: as).getLast hne) := by
          rw [List.head?_reverse]; exact hd
        rw [hr] at hrev
        simp only [List.head?_cons, Option.some.injEq] at hrev
        rw [List.dropWhile_cons, if_neg (by simp [hrev, hd'])]
    unfold pstrip
    rw [h1, h2, List.reverse_reverse]

/-- The first character of a non-empty `pstrip` result is not
whitespace. -/
theorem pstrip_head_not_space (q : List Char) (c : Char)
    (h : (pstrip q).head? = some c) : pyIsSpace c = false := by
  unfold pstrip at h
  rw [List.head?_reverse] at h
  obtain ⟨t, ht⟩ :=
    List.dropWhile_suffix (l := (q.dropWhile pyIsSpace).reverse) pyIsSpace
  have hY : (q.dropWhile pyIsSpace).reverse.dropWhile pyIsSpace ≠ [] := by
    intro h0
    rw [h0] at h
    simp at h
  have hgl := List.getLast?_append_of_ne_nil t hY
  rw [ht] at hgl
  rw [← hgl, List.getLast?_reverse] at h
  exact head_dropWhile_false q c h

/-- The last character of a non-empty `pstrip` result is not
whitespace. -/
theorem pstrip_getLast_not_space (q : List Char) (c : Char)
    (h : (pstrip q).getLast? = some c) : pyIsSpace c = false := by
  unfold pstrip at h
  rw [List.getLast?_reverse] at h
  exact head_dropWhile_false _ c h

/-- A join of non-empty parts is non-empty. -/
theorem pyjoin_ne_nil (sep : List Char) (parts : List (List Char))
    (hne : parts ≠ []) (hp : ∀ p ∈ parts, p ≠ []) :
    pyjoin sep parts ≠ [] := by
  rcases parts with _ | ⟨p, ps⟩
  · exact absurd rfl hne
  · rcases ps with _ | ⟨q, qs⟩
    · simpa [pyjoin] using hp p (by simp)
    · have hp1 : p ≠ [] := hp p (by simp)
      simp [pyjoin, hp1]

/-- Both ends of a join of non-empty parts whose own ends are
non-whitespace are non-whitespace. -/
theorem pyjoin_ends_not_space (sep : List Char) (parts : List (List Char))
    (hp : ∀ p ∈ parts, p ≠ []
      ∧ (∀ c, p.head? = some c → pyIsSpace c = false)
      ∧ (∀ c, p.getLast? = some c → pyIsSpace c = false)) :
    (∀ c, (pyjoin sep parts).head? = some c → pyIsSpace c = false)
    ∧ (∀ c, (pyjoin sep parts).getLast? = some c → pyIsSpace c = false) := by
  induction parts with
  | nil => constructor <;> intro c hc <;> simp [pyjoin] at hc
  | cons p ps ih =>
    rcases ps with _ | ⟨q, qs⟩
    · have hpp := hp p (by simp)
      constructor
      · intro c hc
        exact hpp.2.1 c (by simpa [pyjoin] using hc)
      · intro c hc
        exact hpp.2.2 c (by simpa [pyjoin] using hc)
    · have hpp := hp p (by simp)
      have hrest := ih (fun r hr => hp r (by simp [hr]))
      have hjoin_ne : pyjoin sep (q :: qs) ≠ [] :=
        pyjoin_ne_nil sep (q :: qs) (by simp) (fun r hr => (hp r (by simp [hr])).1)
      constructor
      · intro c hc
        rcases hp0 : p with _ | ⟨a, as⟩
        · exact absurd hp0 hpp.1
        · subst hp0
          simp only [pyjoin, List.cons_append, List.head?_cons,
            Option.some.injEq] at hc
          rw [← hc]
          exact hpp.2.1 a rfl
      · intro c hc
        simp only [pyjoin] at hc
        rw [List.getLast?_append_of_ne_nil (p ++ sep) hjoin_ne] at hc
        exact hrest.2 c hc

/-- The OCR helper's output is invariant under `strip`: it is either
empty or starts and ends with a non-whitespace character, because it is
a `"\n\n"` join of stripped non-empty page markdowns. -/
theorem extract_process_pstrip (response : Option (List (List Char))) :
    pstrip (extract_text_using_ocr_process response)
      = extract_text_using_ocr_process response := by
  cases response with
  | none => rfl
  | some pages =>
    have hp : ∀ p ∈ (pages.map pstrip).filter (fun page_content => !page_content.isEmpty),
        p ≠ [] ∧ (∀ c, p.head? = some c → pyIsSpace c = false)
          ∧ (∀ c, p.getLast? = some c → pyIsSpace c = false) := by
      intro p hpmem
      obtain ⟨hmap, hfilt⟩ := List.mem_filter.mp hpmem
      obtain ⟨q, hq, hqe⟩ := List.mem_map.mp hmap
      refine ⟨?_, ?_, ?_⟩
      · intro h0
        rw [h0] at hfilt
        simp at hfilt
      · intro c hc
        rw [← hqe] at hc
        exact pstrip_head_not_space q c hc
      · intro c hc
        rw [← hqe] at hc
        exact pstrip_getLast_not_space q c hc
    have hj := pyjoin_ends_not_space "\n\n".data _ hp
    have hrepr : extract_text_using_ocr_process (some pages)
        = pyjoin "\n\n".data
            ((pages.map pstrip).filter (fun page_content => !page_content.isEmpty)) := rfl
    rw [hrepr]
    exact pstrip_eq_self _ hj.1 hj.2

/-! ## Claim theorems. -/

/-- C1 counterexample: a scanned PDF (the classifier says `True`) whose
OCR yields no text from either tier (the extraction result is empty and
the fallback did run over its one page) nevertheless ends in status
`completed`, because the loader substitutes a non-empty placeholder
document that indexes successfully.  The claim as stated says the
terminal status must be `failed`. -/
theorem C1_counterexample :
    is_pdf_scanned c1Oracle.pdf = true
    ∧ (extract_text_from_scanned_pdf c1Oracle.conv.ocr).1 = []
    ∧ (extract_text_from_scanned_pdf c1Oracle.conv.ocr).2 = 1
    ∧ (pipelineFinal "scan.pdf".data "u".data c1Oracle true 1 2).processing_status
        = Status.completed :=
  ⟨rfl, rfl, rfl, rfl⟩

/-- C1 (amended): when a scanned PDF's OCR extraction yields no text,
the loader indexes the fixed error-placeholder document, so the
document's terminal status is `completed` exactly when the vector-store
write succeeds and `failed` only when that write fails; `completed`
therefore does not require non-empty extracted text. -/
theorem C1_ocr_empty_status (fn uuid : List Char) (o : LoaderOracle) (addOk : Bool)
    (t1 t2 : Nat)
    (hav : o.ocrAvailable = true)
    (hsc : is_pdf_scanned o.pdf = true)
    (hpdf : pyendswith ".pdf".data (tempFilePath uuid fn) = true)
    (hext : (extract_text_from_scanned_pdf o.conv.ocr).1 = []) :
    (pipelineFinal fn uuid o addOk t1 t2).processing_status
      = (if addOk then Status.completed else Status.failed) := by
  have hload := load_scanned_no_text o (tempFilePath uuid fn) hpdf hav hsc hext
  have hidx : index_document_to_chroma o addOk (tempFilePath uuid fn) = addOk := by
    unfold index_document_to_chroma
    rw [hload]
    rfl
  unfold pipelineFinal
  rw [background_status, hidx]

/-- C1 witness: the amended statement evaluated on the concrete
no-text scenario with a succeeding vector-store write. -/
theorem C1_ocr_empty_status_witness :
    (pipelineFinal "scan.pdf".data "u".data c1Oracle false 1 2).processing_status
      = (if false then Status.completed else Status.failed) :=
  C1_ocr_empty_status "scan.pdf".data "u".data c1Oracle false 1 2 rfl rfl (by decide) rfl

/-- C2: if the direct whole-document OCR attempt returns text with
length > 100, the page-by-page fallback is not invoked (zero page-level
OCR calls) and the direct text is returned as the result.  The direct
text is built by `_extract_text_using_ocr_process`, which strip-joins
the response pages, so it is invariant under `strip` and a raw length
above 100 already satisfies the source's `len(direct_text.strip()) >
100` acceptance test. -/
theorem C2_direct_accept (o : OcrOracle)
    (h : 100 < (extract_text_using_ocr_process o.directPages).length) :
    extract_text_from_scanned_pdf o = (extract_text_using_ocr_process o.directPages, 0) := by
  have hstrip := extract_process_pstrip o.directPages
  have hne : ¬ (extract_text_using_ocr_process o.directPages).isEmpty = true := by
    intro hc
    rw [List.isEmpty_iff] at hc
    rw [hc] at h
    simp at h
  simp only [extract_text_from_scanned_pdf]
  rw [if_pos (⟨hne, by rw [hstrip]; exact h⟩ :
    ¬ (extract_text_using_ocr_process o.directPages).isEmpty = true
    ∧ 100 < (pstrip (extract_text_using_ocr_process o.directPages)).length)]

set_option maxRecDepth 8192 in
/-- C2 witness: a direct OCR response of one 101-character page is
accepted with no fallback call. -/
theorem C2_direct_accept_witness :
    extract_text_from_scanned_pdf ⟨some [List.replicate 101 'a'], some [some [['x']]]⟩
      = (extract_text_using_ocr_process (some [List.replicate 101 'a']), 0) :=
  C2_direct_accept ⟨some [List.replicate 101 'a'], some [some [['x']]]⟩ (by decide)

/-- C3 counterexample: a one-page PDF with exactly 50 characters of
non-whitespace extractable text is classified as scanned (`True`),
whereas the claim ("at least 50 characters" yields not-scanned) requires
`False`: the source demands strictly more than 50 characters. -/
theorem C3_counterexample :
    (List.replicate 50 'a').length ≥ 50
    ∧ pstrip (List.replicate 50 'a') = List.replicate 50 'a'
    ∧ is_pdf_scanned (.parsed [List.replicate 50 'a']) = true :=
  ⟨by decide, by decide, by decide⟩

/-- C3 (amended): a PDF with strictly more than 50 characters of
stripped extractable text on one of its first `min(3, page count)`
pages is classified not-scanned; one with no such page is classified
scanned; an unreadable file is classified not-scanned. -/
theorem C3_classifier_threshold (pages : List (List Char)) :
    ((∃ p ∈ pages.take (min 3 pages.length), 50 < (pstrip p).length) →
        is_pdf_scanned (.parsed pages) = false)
    ∧ ((∀ p ∈ pages.take (min 3 pages.length), (pstrip p).length ≤ 50) →
        is_pdf_scanned (.parsed pages) = true)
    ∧ is_pdf_scanned .unreadable = false := by
  refine ⟨?_, ?_, rfl⟩
  · rintro ⟨p, hp, hlen⟩
    have hne : (pstrip p).isEmpty = false := by
      rw [List.isEmpty_eq_false_iff_exists_mem]
      cases hps : pstrip p with
      | nil => rw [hps] at hlen; simp at hlen
      | cons c cs => exact ⟨c, by simp⟩
    simp only [is_pdf_scanned, Bool.not_eq_false', List.any_eq_true, Bool.and_eq_true,
      Bool.not_eq_true', decide_eq_true_eq]
    exact ⟨p, hp, hne, hlen⟩
  · intro h
    simp only [is_pdf_scanned, Bool.not_eq_true', List.any_eq_false, Bool.and_eq_true,
      Bool.not_eq_true', decide_eq_true_eq, not_and]
    intro p hp _
    have := h p hp
    omega
  
/-- C3 witness: the amended statement applied on a 51-character page
(not scanned), a 50-character page (scanned), and an unreadable file. -/
theorem C3_classifier_threshold_witness :
    is_pdf_scanned (.parsed [List.replicate 51 'b']) = false
    ∧ is_pdf_scanned (.parsed [List.replicate 50 'a']) = true
    ∧ is_pdf_scanned .unreadable = false :=
  ⟨(C3_classifier_threshold [List.replicate 51 'b']).1
      ⟨List.replicate 51 'b', by decide, by decide⟩,
   (C3_classifier_threshold [List.replicate 50 'a']).2.1 (by decide),
   (C3_classifier_threshold []).2.2⟩

/-- C4: on a two-page scanned PDF whose direct OCR text is too short,
the page-by-page fallback makes one OCR call per page (two calls, three
in total with the direct attempt), the save succeeds, yet the returned
metadata still reports `api_calls_made = 1` (the value set at page
counting and, despite the source's comment "Will be updated based on
actual method", never updated), reports `successful_pages = 0`, and
carries no field recording which tier succeeded. -/
theorem C4_metadata_bug :
    dget (convert_and_save_both c4Oracle "input.pdf".data) "api_calls_made" = some (.vn 1)
    ∧ (extract_text_from_scanned_pdf c4Oracle.ocr).2 = 2
    ∧ dget (convert_and_save_both c4Oracle "input.pdf".data) "successful_pages"
        = some (.vn 0)
    ∧ getB (convert_and_save_both c4Oracle "input.pdf".data) "success" = true :=
  ⟨rfl, rfl, rfl, rfl⟩

/-- C5: every document row is created `pending`, is set to `processing`
(recording the start timestamp) before any terminal update, and ends in
`completed` or `failed` (recording the end timestamp): the succession of
row states is exactly pending, processing, terminal. -/
theorem C5_state_machine (fn uuid : List Char) (o : LoaderOracle) (addOk : Bool)
    (t1 t2 : Nat) :
    ∃ term, (term = Status.completed ∨ term = Status.failed)
    ∧ (pipelineRecords fn uuid o addOk t1 t2).map (·.processing_status)
        = [Status.pending, Status.processing, term]
    ∧ (pipelineRecords fn uuid o addOk t1 t2).map (·.processing_start_time)
        = [none, some t1, some t1]
    ∧ (pipelineRecords fn uuid o addOk t1 t2).map (·.processing_end_time)
        = [none, none, some t2] := by
  cases h : index_document_to_chroma o addOk (tempFilePath uuid fn)
  · exact ⟨Status.failed, Or.inr rfl,
      by simp [pipelineRecords, process_document_background, h,
        update_document_processing_status, insert_document_record],
      by simp [pipelineRecords, process_document_background, h,
        update_document_processing_status, insert_document_record],
      by simp [pipelineRecords, process_document_background, h,
        update_document_processing_status, insert_document_record]⟩
  · exact ⟨Status.completed, Or.inl rfl,
      by simp [pipelineRecords, process_document_background, h,
        update_document_processing_status, insert_document_record],
      by simp [pipelineRecords, process_document_background, h,
        update_document_processing_status, insert_document_record],
      by simp [pipelineRecords, process_document_background, h,
        update_document_processing_status, insert_document_record]⟩

/-- C6 counterexample: a document whose extraction fails reaches the
terminal status `failed` with a NULL error message and NULL processing
method, because the background task updates the status alone.  The
claim as stated requires a non-null error message on every failure and
the method/OCR fields in the same update. -/
theorem C6_counterexample :
    (pipelineFinal "report.docx".data "u".data c6Oracle true 1 2).processing_status
        = Status.failed
    ∧ (pipelineFinal "report.docx".data "u".data c6Oracle true 1 2).error_message = none
    ∧ (pipelineFinal "report.docx".data "u".data c6Oracle true 1 2).processing_method = none :=
  ⟨rfl, rfl, rfl⟩

/-- C6 (amended): `update_document_processing_status` does persist, in
the single update that changes the status, every processing method, OCR
field and (non-empty) error message passed to it, together with the end
timestamp; but the background processor passes none of these, so a
terminal row keeps the NULL error message and NULL processing method it
was inserted with. -/
theorem C6_update_atomic (row : DocRecord) (em pm : List Char)
    (hem : ¬ em.isEmpty = true) (hpm : ¬ pm.isEmpty = true)
    (b1 b2 : Bool) (p1 p2 : List Char) (n1 n2 n3 n4 : Nat) (t : Nat)
    (fn uuid : List Char) (o : LoaderOracle) (addOk : Bool) (t1 t2 : Nat) :
    (let od : OcrData := ⟨some b1, some p1, some p2, some b2, some n1, some n2, some n3, some n4⟩
     let r := update_document_processing_status row .failed (some em) (some pm) (some od) t
     r.processing_status = Status.failed
     ∧ r.processing_end_time = some t
     ∧ r.error_message = some em
     ∧ r.processing_method = some pm
     ∧ r.is_scanned_pdf = some b1
     ∧ r.converted_pdf_path = some p1
     ∧ r.extracted_text_path = some p2
     ∧ r.ocr_conversion_success = some b2
     ∧ r.ocr_processing_time = some n1
     ∧ r.total_pages = some n2
     ∧ r.total_chunks = some n3
     ∧ r.ocr_confidence_score = some n4)
    ∧ (pipelineFinal fn uuid o addOk t1 t2).error_message = none
    ∧ (pipelineFinal fn uuid o addOk t1 t2).processing_method = none := by
  have hem' : em.isEmpty = false := by
    cases hb : em.isEmpty
    · rfl
    · exact absurd hb hem
  have hpm' : pm.isEmpty = false := by
    cases hb : pm.isEmpty
    · rfl
    · exact absurd hb hpm
  refine ⟨?_, ?_, ?_⟩
  · simp [update_document_processing_status, hem', hpm']
  · have hb := background_error_method o addOk (tempFilePath uuid fn)
      (insert_document_record fn .pending) t1 t2
    unfold pipelineFinal
    rw [hb.1]
    rfl
  · have hb := background_error_method o addOk (tempFilePath uuid fn)
      (insert_document_record fn .pending) t1 t2
    unfold pipelineFinal
    rw [hb.2]
    rfl

/-- C6 witness: the amended statement on a concrete full update and a
concrete failing pipeline run. -/
theorem C6_update_atomic_witness :
    (let od : OcrData := ⟨some true, some ['p'], some ['q'], some false,
        some 1, some 2, some 3, some 4⟩
     let r := update_document_processing_status
        (insert_document_record "a.docx".data .pending)
        .failed (some "boom".data) (some "m".data) (some od) 9
     r.processing_status = Status.failed
     ∧ r.processing_end_time = some 9
     ∧ r.error_message = some "boom".data
     ∧ r.processing_method = some "m".data
     ∧ r.is_scanned_pdf = some true
     ∧ r.converted_pdf_path = some ['p']
     ∧ r.extracted_text_path = some ['q']
     ∧ r.ocr_conversion_success = some false
     ∧ r.ocr_processing_time = some 1
     ∧ r.total_pages = some 2
     ∧ r.total_chunks = some 3
     ∧ r.ocr_confidence_score = some 4)
    ∧ (pipelineFinal "report.docx".data "v".data c6Oracle true 1 2).error_message = none
    ∧ (pipelineFinal "report.docx".data "v".data c6Oracle true 1 2).processing_method = none :=
  C6_update_atomic _ _ _ (by decide) (by decide) _ _ _ _ _ _ _ _ _ _ _ c6Oracle true 1 2

/-- C7: deleting a document identifier that has no stored chunks is a
successful no-op (the store is untouched and `True` is returned), and a
repeated delete after any delete also returns `True`. -/
theorem C7_delete_idempotent (vs : List StoredChunk) (fid : Nat) :
    ((vs.filter (fun c => c.file_id == fid)).isEmpty = true →
        delete_doc_from_chroma vs fid false false = (vs, true))
    ∧ (delete_doc_from_chroma (delete_doc_from_chroma vs fid false false).1 fid false false).2
        = true := by
  constructor
  · intro h
    unfold delete_doc_from_chroma
    simp [h]
  · cases hf : (vs.filter (fun c => c.file_id == fid)).isEmpty
    · have hff : ((vs.filter (fun c => !(c.file_id == fid))).filter
          (fun c => c.file_id == fid)) = [] := by
        rw [List.filter_filter]
        simp
      simp [delete_doc_from_chroma, hf, hff]
    · simp [delete_doc_from_chroma, hf]

/-- C7 witness: deleting an identifier with no chunks, twice. -/
theorem C7_delete_idempotent_witness :
    delete_doc_from_chroma [⟨1, 5⟩] 7 false false = ([⟨1, 5⟩], true)
    ∧ (delete_doc_from_chroma (delete_doc_from_chroma [⟨1, 5⟩] 7 false false).1 7
        false false).2 = true :=
  ⟨(C7_delete_idempotent [⟨1, 5⟩] 7).1 (by decide), (C7_delete_idempotent [⟨1, 5⟩] 7).2⟩

/-- C8: an upload whose lowercased extension is not `.pdf`, `.docx` or
`.html` is rejected with the unsupported-type error before anything
happens: no record is inserted and no background task is submitted. -/
theorem C8_reject_unsupported (fn uuid : List Char) (wr : Bool)
    (h : pylower (splitextExt fn) ∉ allowed_extensions) :
    upload_and_index_document fn uuid wr = (.rejectedUnsupported, [], []) := by
  unfold upload_and_index_document
  simp [h]

/-- C8 witness: a `.txt` upload is rejected with no side effects. -/
theorem C8_reject_unsupported_witness :
    upload_and_index_document "notes.txt".data "u".data false
      = (.rejectedUnsupported, [], []) :=
  C8_reject_unsupported "notes.txt".data "u".data false (by decide)

/-- C9: an upload whose extension is a non-lowercase case variant of a
supported one is accepted by the endpoint (the check lowercases), but
the loader's case-sensitive `endswith` dispatch matches no branch, so
extraction yields the empty list and the document terminates in status
`failed`. -/
theorem C9_case_variant_fails (fn uuid : List Char) (o : LoaderOracle) (addOk : Bool)
    (t1 t2 : Nat)
    (h1 : pylower (splitextExt fn) ∈ allowed_extensions)
    (h2 : splitextExt fn ≠ pylower (splitextExt fn)) :
    (upload_and_index_document fn uuid false).1
        = .accepted (insert_document_record fn .pending)
    ∧ load_and_split_document o (tempFilePath uuid fn) = []
    ∧ (pipelineFinal fn uuid o addOk t1 t2).processing_status = Status.failed := by
  have hassoc : tempFilePath uuid fn = ("temp_".data ++ uuid ++ "_".data) ++ fn := by
    simp [tempFilePath]
  have hp := ext_variant_no_endswith fn h1 h2 ("temp_".data ++ uuid ++ "_".data)
    ".pdf".data (by decide)
  have hd := ext_variant_no_endswith fn h1 h2 ("temp_".data ++ uuid ++ "_".data)
    ".docx".data (by decide)
  have hh := ext_variant_no_endswith fn h1 h2 ("temp_".data ++ uuid ++ "_".data)
    ".html".data (by decide)
  have hload : load_and_split_document o (tempFilePath uuid fn) = [] := by
    unfold load_and_split_document
    rw [hassoc, hp, hd, hh]
    rfl
  refine ⟨?_, hload, ?_⟩
  · unfold upload_and_index_document
    simp [h1]
  · have hidx : index_document_to_chroma o addOk (tempFilePath uuid fn) = false := by
      unfold index_document_to_chroma
      rw [hload]
      rfl
    unfold pipelineFinal
    rw [background_status, hidx]
    rfl

/-- C9 witness: a `.PDF` upload is accepted, loads nothing, and fails. -/
theorem C9_case_variant_fails_witness :
    (upload_and_index_document "scan.PDF".data "u".data false).1
        = .accepted (insert_document_record "scan.PDF".data .pending)
    ∧ load_and_split_document c9Oracle (tempFilePath "u".data "scan.PDF".data) = []
    ∧ (pipelineFinal "scan.PDF".data "u".data c9Oracle true 1 2).processing_status
        = Status.failed :=
  C9_case_variant_fails "scan.PDF".data "u".data c9Oracle true 1 2 (by decide) (by decide)

/-- C10: whenever `convert_and_save_both` reports `success = True`, its
`errors` list is non-empty: the success-path logging reads the absent
`pdf_path` key, and the resulting `KeyError` is caught and appended to
the errors. -/
theorem C10_success_nonempty_errors (o : ConvertOracle) (p : List Char)
    (h : getB (convert_and_save_both o p) "success" = true) :
    ∃ l, dget (convert_and_save_both o p) "errors" = some (.vlist l) ∧ l ≠ [] := by
  rcases o with ⟨er, em, pc, sr, ocr, d1, d2⟩
  cases er
  · cases pc with
    | none =>
      rcases hsv : save_extracted_text_to_file ⟨false, em, none, sr, ocr, d1, d2⟩
          (textOutputPathFor p) with ⟨ts, tpath⟩
      cases ts
      · rw [convert_success_getB, hsv] at h
        simp at h
      · refine ⟨[keyErrorMsg], ?_, by simp⟩
        unfold convert_and_save_both
        rw [hsv]
        rfl
    | some n =>
      rcases hsv : save_extracted_text_to_file ⟨false, em, some n, sr, ocr, d1, d2⟩
          (textOutputPathFor p) with ⟨ts, tpath⟩
      cases ts
      · rw [convert_success_getB, hsv] at h
        simp at h
      · refine ⟨[keyErrorMsg], ?_, by simp⟩
        unfold convert_and_save_both
        rw [hsv]
        rfl
  · rw [convert_success_getB] at h
    simp at h

set_option maxRecDepth 4096 in
/-- C10 witness: a successful conversion whose errors list holds the
`KeyError` string. -/
theorem C10_success_nonempty_errors_witness :
    ∃ l, dget (convert_and_save_both c10Oracle "input.pdf".data) "errors"
        = some (.vlist l) ∧ l ≠ [] :=
  C10_success_nonempty_errors c10Oracle "input.pdf".data rfl
